import Mathlib

/-
  Verification development for the pytrees-rs Python wrapper
  (pytrees/base.py, pytrees/supervised/classifier.py,
   pytrees/supervised/lgdt.py, pytrees/unsupervised/clustering.py)
  and, where the Rust engine is referenced, a model built from the
  specification.
-/

set_option maxHeartbeats 1000000

namespace PytreesRS

/-! ## Serialized tree data model (base.py, spec section 6)

A serialized tree is an ordered array of nodes; each node holds child
indices `left`/`right` and a `value` dictionary that carries `test`
(internal nodes), `out` and `error` (leaf nodes); absent JSON keys are
modelled with `Option`. -/

structure NodeValue where
  test : Option Nat
  out : Option Int
  error : Option ℚ
deriving DecidableEq, Repr

structure TreeNode where
  left : Nat
  right : Nat
  value : NodeValue
deriving DecidableEq, Repr

/-- The `tree` array of the parsed JSON result: index 0 is the root. -/
abbrev ParsedTree := List TreeNode

/-- `DecisionTree.is_leaf_node` (base.py): a node is a leaf when both
child indices equal 0: `(node["left"] == 0) and (node["right"] == 0)`. -/
def is_leaf_node (node : TreeNode) : Bool :=
  node.left == 0 && node.right == 0

/-- The leaf test used by `DecisionTree.get_dot_body_rec` (base.py):
`node["right"] == node["left"]`. -/
def dot_leaf_test (node : TreeNode) : Bool :=
  node.right == node.left

/-! ## Prediction (base.py `pred_value_on_dict` and `predict`)

`pred_value_on_dict` is a `while` loop over the flat node array; it is
embedded with explicit fuel, returning `none` when the fuel runs out or
a dictionary key / array index is missing. -/

/-- `DecisionTree.pred_value_on_dict` (base.py): starting from `node`,
while the node is not a leaf, read the tested attribute; if the row's
value there equals 1 move to the right child, otherwise to the left
child; at a leaf return the stored `out` value. -/
def pred_value_on_dict (tr : ParsedTree) (row : List Nat) :
    Nat → TreeNode → Option Int
  | 0, _ => none
  | fuel + 1, node =>
    if is_leaf_node node then node.value.out
    else
      match node.value.test with
      | none => none
      | some t =>
        match row[t]? with
        | none => none
        | some v =>
          match tr[if v = 1 then node.right else node.left]? with
          | none => none
          | some child => pred_value_on_dict tr row fuel child

/-- The prediction loop of `DecisionTree.predict` (base.py): for each
row of `X`, in order, append `pred_value_on_dict` started at the root
`self.tree_["tree"][0]`. -/
def predict (tr : ParsedTree) (fuel : Nat) : List (List Nat) → List (Option Int)
  | [] => []
  | row :: rest =>
      (tr[0]?.bind fun root => pred_value_on_dict tr row fuel root) ::
        predict tr fuel rest

/-! ## Well-formedness of serialized trees (spec sections 3 and 6) -/

/-- Spec section 6: a leaf serializes as `{left:0, right:0,
value:{out, error}}` — it has an `out` value and no `test`. -/
def leaf_format (n : TreeNode) : Prop :=
  n.value.test = none ∧ n.value.out.isSome = true

/-- Spec section 6: an internal node serializes as
`{left:<idx>, right:<idx>, value:{test}}` — a `test` and no `out`. -/
def internal_format (n : TreeNode) : Prop :=
  n.value.out = none ∧ n.value.test.isSome = true

/-- Spec section 3 Tree invariant: a node is a leaf iff both child
indices equal 0; here leafhood of the serialized form is carried by the
value dictionary. -/
def well_formed_node (n : TreeNode) : Prop :=
  (is_leaf_node n = true → leaf_format n) ∧
  (is_leaf_node n = false → internal_format n)

/-- A well-formed serialized tree: nonempty (one root at index 0) and
every node well-formed. -/
def well_formed_tree (tr : ParsedTree) : Prop :=
  tr ≠ [] ∧ ∀ n ∈ tr, well_formed_node n

instance (n : TreeNode) : Decidable (well_formed_node n) := by
  unfold well_formed_node leaf_format internal_format
  infer_instance

instance (tr : ParsedTree) : Decidable (well_formed_tree tr) := by
  unfold well_formed_tree
  infer_instance

/-! ## Wrapper state (base.py `DecisionTree`) -/

/-- The parsed `statistics` dictionary; only the key read by the
wrapper (`num_samples`, used by `set_accuracy`) is modelled. -/
structure Statistics where
  num_samples : Nat
deriving DecidableEq, Repr

/-- The engine result object (`self.__obj.stats` / the return of the
greedy `lgdt` call): a serialized tree, the tree's error and the search
statistics. -/
structure EngineResult where
  tree : ParsedTree
  error : ℚ
  statistics : Statistics
deriving DecidableEq, Repr

/-- The exceptions predict and fit can raise: sklearn's
`NotFittedError` and the package's `TreeNotFoundError` and
`SearchFailedError` (pytrees/exceptions, declared in base.py's
imports). -/
inductive PyError where
  | notFitted
  | treeNotFound
  | searchFailed
deriving DecidableEq, Repr

/-- The attributes of a `DecisionTree` instance touched by fit,
`refresh_stats` and `predict`. `has_tree_attr` models Python's
`hasattr(self, "tree_")`. -/
structure WrapperState where
  results : Option EngineResult
  tree_ : Option ParsedTree
  tree_error_ : Option ℚ
  accuracy_ : Option ℚ
  is_fitted_ : Bool
  statistics : Option Statistics
  has_tree_attr : Bool
deriving DecidableEq, Repr

/-- `DecisionTree.__init__` (base.py): every attribute set to its
unfitted default; assigning `self.tree_ = None` makes the `tree_`
attribute exist, so `hasattr(self, "tree_")` is true from then on. -/
def decision_tree_init : WrapperState :=
  { results := none, tree_ := none, tree_error_ := none,
    accuracy_ := none, is_fitted_ := false, statistics := none,
    has_tree_attr := true }

/-- Python's bankers rounding (`round`) to the nearest integer:
ties go to the even neighbour. -/
def round_half_even (q : ℚ) : ℤ :=
  let f := ⌊q⌋
  if q - f < 1 / 2 then f
  else if 1 / 2 < q - f then f + 1
  else if f % 2 = 0 then f else f + 1

/-- Python's `round(x, 5)`. -/
def py_round5 (q : ℚ) : ℚ :=
  (round_half_even (q * 100000) : ℚ) / 100000

/-- `DecisionTree.set_accuracy` (base.py):
`accuracy_ = round(1 - results.error / statistics["num_samples"], 5)`.
The attributes are read from the state, as in the source; outside the
`refresh_stats` flow they may be unset, in which case Python would
raise, modelled as leaving the state unchanged (never reached below). -/
def set_accuracy (s : WrapperState) : WrapperState :=
  match s.results, s.statistics with
  | some r, some st =>
      { s with accuracy_ := some (py_round5 (1 - r.error / (st.num_samples : ℚ))) }
  | _, _ => s

/-- The `out` value of the first node of the tree array, read by
`refresh_stats` as `tree["tree"][0]["value"]["out"]`. -/
def first_out (tr : ParsedTree) : Option Int :=
  match tr with
  | [] => none
  | n :: _ => n.value.out

/-- `DecisionTree.refresh_stats` (base.py), with `r` the engine result
just stored in `self.results`: parse the tree and statistics; if the
tree has exactly one node whose `out` value is not in `[0, 1]`, record
no tree (`tree_ = None`); otherwise store the tree, mark the model
fitted and record the error and accuracy. -/
def refresh_stats (s : WrapperState) (r : EngineResult) : WrapperState :=
  let tree := r.tree
  let s1 := { s with statistics := some r.statistics }
  if tree.length = 1 ∧ first_out tree ∉ ([some 0, some 1] : List (Option Int)) then
    { s1 with tree_ := none }
  else
    set_accuracy { s1 with tree_ := some tree, is_fitted_ := true,
                           tree_error_ := some r.error }

/-- The `try/except` body of `DL85Classifier.fit` (classifier.py):
on engine success store `self.results` and run `refresh_stats`; on any
engine exception set `is_fitted_ = False` and raise
`SearchFailedError`. Returns the post-call state together with the
raised exception, if any. -/
def dl85_fit (s : WrapperState) (engine : Except Unit EngineResult) :
    WrapperState × Option PyError :=
  match engine with
  | .ok r => (refresh_stats { s with results := some r } r, none)
  | .error _ => ({ s with is_fitted_ := false }, some .searchFailed)

/-- The guard chain at the top of `DecisionTree.predict` (base.py):
`is_fitted_ is False` raises `NotFittedError`; then `tree_ is None`
raises `TreeNotFoundError`; then `hasattr(self, "tree_") is False`
raises `SearchFailedError`; otherwise prediction proceeds. -/
def predict_guard (s : WrapperState) : Option PyError :=
  if s.is_fitted_ = false then some .notFitted
  else if s.tree_ = none then some .treeNotFound
  else if s.has_tree_attr = false then some .searchFailed
  else none

/-- States of a `DecisionTree` wrapper reachable from construction by
fit calls. -/
inductive Reachable : WrapperState → Prop where
  | init : Reachable decision_tree_init
  | fit (s : WrapperState) (engine : Except Unit EngineResult) :
      Reachable s → Reachable (dl85_fit s engine).1

/-! ## DL85Classifier configuration (classifier.py `__init__`) -/

inductive LowerBoundPolicy where
  | Disabled
  | Similarity
deriving DecidableEq, Repr

inductive BranchingPolicy where
  | Default
  | Dynamic
deriving DecidableEq, Repr

/-- Opaque rule objects (`pytreesrs.odt.rules`); the wrapper only
tests them against `None` and forwards them. -/
structure ExposedDiscrepancyRule where
deriving DecidableEq, Repr

structure ExposedGainRule where
deriving DecidableEq, Repr

structure ExposedTopKRule where
deriving DecidableEq, Repr

structure ExposedRestartRule where
deriving DecidableEq, Repr

structure ExposedPurityRule where
deriving DecidableEq, Repr

/-- The `any(rule is not None for rule in [...])` test of
`DL85Classifier.__init__` (classifier.py). -/
def rules_active (disc : Option ExposedDiscrepancyRule)
    (gain : Option ExposedGainRule) (topk : Option ExposedTopKRule)
    (restart : Option ExposedRestartRule)
    (purity : Option ExposedPurityRule) : Bool :=
  disc.isSome || gain.isSome || topk.isSome || restart.isSome || purity.isSome

/-- The policy override in `DL85Classifier.__init__` (classifier.py):
when any rule is set, `lower_bound_policy` becomes `Disabled` and
`branching_policy` becomes `Default`; otherwise the supplied values are
kept. Returns the effective pair passed on to `PyDL85`. -/
def effective_policies (lb : LowerBoundPolicy) (bp : BranchingPolicy)
    (disc : Option ExposedDiscrepancyRule) (gain : Option ExposedGainRule)
    (topk : Option ExposedTopKRule) (restart : Option ExposedRestartRule)
    (purity : Option ExposedPurityRule) : LowerBoundPolicy × BranchingPolicy :=
  if rules_active disc gain topk restart purity then
    (LowerBoundPolicy.Disabled, BranchingPolicy.Default)
  else (lb, bp)

/-! ## Constructor defaults (classifier.py and clustering.py)

Python float default values; `inf` is `float("inf")`. -/

inductive PyFloat where
  | inf
  | val (q : ℚ)
deriving DecidableEq, Repr

/-- `DL85Classifier.__init__` default `max_error=float("inf")`. -/
def dl85_classifier_default_max_error : PyFloat := PyFloat.inf

/-- `DL85Classifier.__init__` default `max_time=600.0`. -/
def dl85_classifier_default_max_time : PyFloat := PyFloat.val 600

/-- `DL85Cluster.__init__` (clustering.py) default `max_error=0.0`. -/
def dl85_cluster_default_max_error : PyFloat := PyFloat.val 0

/-- `DL85Cluster.__init__` (clustering.py) default `max_time=600.0`. -/
def dl85_cluster_default_max_time : PyFloat := PyFloat.val 600

/-! ## The search engines, modelled from the spec

The `pytreesrs` native module (the Rust engine built by setup.py's
`RustExtension`) is part of this repository but its sources are not
available here; the engines are modelled from the specification:
sections 4.1 (built-in classification error), 4.5 (split convention,
minimum support, depth budget), 4.7 (greedy LGDT engine) and section 1
(the optimal engine returns the globally minimal-error tree within the
depth/support constraints). -/

/-- A dataset row: its binary feature vector and its class label. -/
abbrev Row := List Nat × Nat

/-- A partition: the rows reachable at a search node. -/
abbrev Partition := List Row

/-- Number of rows of the partition carrying label `c`. -/
def count_label (p : Partition) (c : Nat) : Nat :=
  (p.filter fun rc => rc.2 == c).length

/-- Modelled from the spec (section 4.1): built-in classification
error of a leaf over binary labels: partition size minus the count of
the majority label. -/
def leaf_error (p : Partition) : Nat :=
  p.length - max (count_label p 0) (count_label p 1)

/-- Modelled from the spec (section 4.1): the majority label of the
partition, ties broken toward the lowest label value. -/
def majority (p : Partition) : Nat :=
  if count_label p 0 < count_label p 1 then 1 else 0

/-- Value of feature `a` in a row (absent features read as 0). -/
def feature_val (r : Row) (a : Nat) : Nat :=
  r.1.getD a 0

/-- Modelled from the spec (section 4.5): the left sub-partition of a
split on attribute `a` — transactions whose feature value is not 1. -/
def split_left (p : Partition) (a : Nat) : Partition :=
  p.filter fun r => !(feature_val r a == 1)

/-- Modelled from the spec (section 4.5): the right sub-partition of a
split on attribute `a` — transactions whose feature value is 1. -/
def split_right (p : Partition) (a : Nat) : Partition :=
  p.filter fun r => feature_val r a == 1

/-- Modelled from the spec (section 4.5): a split is accepted only if
both children satisfy the minimum support. -/
def feasible (minSup : Nat) (p : Partition) (a : Nat) : Bool :=
  minSup ≤ (split_left p a).length && minSup ≤ (split_right p a).length

/-- The feasible candidate attributes at a node. -/
def candidates (numAttr minSup : Nat) (p : Partition) : List Nat :=
  (List.range numAttr).filter (feasible minSup p)

/-- Modelled from the spec (sections 1 and 4.5): the error returned by
the optimal engine (`DL85Classifier.fit`) on a partition with the given
remaining depth — the minimum, over making the node a leaf and over
every feasible split, of the achievable classification error. -/
def opt_error (numAttr minSup : Nat) : Nat → Partition → Nat
  | 0, p => leaf_error p
  | d + 1, p =>
      ((candidates numAttr minSup p).map fun a =>
          opt_error numAttr minSup d (split_left p a) +
            opt_error numAttr minSup d (split_right p a)).foldl
        min (leaf_error p)

/-- Modelled from the spec (section 4.7): the attribute chosen by the
greedy error-minimizer strategy — among feasible candidates, the one
minimizing the immediate classification error of the two children. -/
def greedy_choice (numAttr minSup : Nat) (p : Partition) : Option Nat :=
  (candidates numAttr minSup p).argmin fun a =>
    leaf_error (split_left p a) + leaf_error (split_right p a)

/-- Modelled from the spec (section 4.7): the error of the tree built
by the greedy engine (`LGDTClassifier.fit`): at every node take the
single best feasible attribute and recurse with depth − 1, without
backtracking; a node with no feasible split becomes a leaf. -/
def greedy_error (numAttr minSup : Nat) : Nat → Partition → Nat
  | 0, p => leaf_error p
  | d + 1, p =>
      match greedy_choice numAttr minSup p with
      | none => leaf_error p
      | some a =>
          greedy_error numAttr minSup d (split_left p a) +
            greedy_error numAttr minSup d (split_right p a)

/-! ## The optimal engine's returned tree, modelled from the spec -/

/-- A decision tree as built by the search, before serialization. -/
inductive DTree where
  | leaf (out : Nat) (err : Nat)
  | node (attr : Nat) (l r : DTree)
deriving DecidableEq, Repr

/-- Modelled from the spec: the optimal tree found by the search;
at each node the best feasible split is taken when it improves on the
leaf error, otherwise the node becomes a leaf with the majority label. -/
def opt_tree (numAttr minSup : Nat) : Nat → Partition → DTree
  | 0, p => DTree.leaf (majority p) (leaf_error p)
  | d + 1, p =>
      match (candidates numAttr minSup p).argmin (fun a =>
          opt_error numAttr minSup d (split_left p a) +
            opt_error numAttr minSup d (split_right p a)) with
      | none => DTree.leaf (majority p) (leaf_error p)
      | some a =>
          if opt_error numAttr minSup d (split_left p a) +
              opt_error numAttr minSup d (split_right p a) < leaf_error p then
            DTree.node a (opt_tree numAttr minSup d (split_left p a))
              (opt_tree numAttr minSup d (split_right p a))
          else DTree.leaf (majority p) (leaf_error p)

/-- Number of nodes of a search tree. -/
def tree_size : DTree → Nat
  | DTree.leaf _ _ => 1
  | DTree.node _ l r => 1 + tree_size l + tree_size r

/-- Serialize a search tree into the flat node array (spec section 6):
the subtree's root is placed at index `i`, the left subtree right after
it and the right subtree after the left one; leaves carry `{out,error}`
and child indices 0, internal nodes carry `{test}`. -/
def flatten_at : DTree → Nat → ParsedTree
  | DTree.leaf o e, _ => [⟨0, 0, ⟨none, some (o : Int), some (e : ℚ)⟩⟩]
  | DTree.node a l r, i =>
      ⟨i + 1, i + 1 + tree_size l, ⟨some a, none, none⟩⟩ ::
        (flatten_at l (i + 1) ++ flatten_at r (i + 1 + tree_size l))

/-- The serialized form of a search tree, root at index 0. -/
def to_parsed (t : DTree) : ParsedTree :=
  flatten_at t 0

/-- Modelled from the spec: the result object returned by the optimal
engine's fit — the serialized optimal tree, its error and the search
statistics; a pure function of the dataset and the parameters (spec
section 8: no hidden randomness). -/
def dl85_engine (numAttr minSup d : Nat) (p : Partition) : EngineResult :=
  { tree := to_parsed (opt_tree numAttr minSup d p),
    error := (opt_error numAttr minSup d p : ℚ),
    statistics := ⟨p.length⟩ }

/-- A full `DL85Classifier.fit` call (classifier.py) with the engine
modelled from the spec: run the engine on the dataset and update the
wrapper state. -/
def dl85_fit_run (s : WrapperState) (numAttr minSup d : Nat)
    (p : Partition) : WrapperState :=
  (dl85_fit s (Except.ok (dl85_engine numAttr minSup d p))).1

/-! ## Engine configuration construction, modelled from the spec -/

/-- Configuration errors rejected before any search (spec section 7). -/
inductive ConfigError where
  | mutuallyExclusiveRules
deriving DecidableEq, Repr

/-- The number of rule options that are set. -/
def count_active_rules (disc : Option ExposedDiscrepancyRule)
    (gain : Option ExposedGainRule) (topk : Option ExposedTopKRule)
    (restart : Option ExposedRestartRule)
    (purity : Option ExposedPurityRule) : Nat :=
  (if disc.isSome then 1 else 0) + (if gain.isSome then 1 else 0) +
    (if topk.isSome then 1 else 0) + (if restart.isSome then 1 else 0) +
    (if purity.isSome then 1 else 0)

/-- The engine-side search configuration held by a `PyDL85` handle. -/
structure EngineConfig where
  lower_bound : LowerBoundPolicy
  branching : BranchingPolicy
  discrepancy : Option ExposedDiscrepancyRule
  gain : Option ExposedGainRule
  topk : Option ExposedTopKRule
  restart : Option ExposedRestartRule
  purity : Option ExposedPurityRule
deriving DecidableEq, Repr

/-- Modelled from the spec: the `PyDL85` configuration constructor
(Rust engine code, not under src/). Spec section 3: at most one of the
rule families {discrepancy, gain, topk, restart, purity} may be set;
section 9: enforce this in the config constructor; section 7:
configuration errors are rejected before any search starts. -/
def pyDL85_new (lb : LowerBoundPolicy) (bp : BranchingPolicy)
    (disc : Option ExposedDiscrepancyRule) (gain : Option ExposedGainRule)
    (topk : Option ExposedTopKRule) (restart : Option ExposedRestartRule)
    (purity : Option ExposedPurityRule) : Except ConfigError EngineConfig :=
  if 1 < count_active_rules disc gain topk restart purity then
    Except.error ConfigError.mutuallyExclusiveRules
  else Except.ok ⟨lb, bp, disc, gain, topk, restart, purity⟩

/-- `DL85Classifier.__init__` (classifier.py) as far as the engine
configuration is concerned: apply the rule-driven policy override, then
build the `PyDL85` handle (constructor modelled from the spec). -/
def dl85_classifier_make (lb : LowerBoundPolicy) (bp : BranchingPolicy)
    (disc : Option ExposedDiscrepancyRule) (gain : Option ExposedGainRule)
    (topk : Option ExposedTopKRule) (restart : Option ExposedRestartRule)
    (purity : Option ExposedPurityRule) : Except ConfigError EngineConfig :=
  let eff := effective_policies lb bp disc gain topk restart purity
  pyDL85_new eff.1 eff.2 disc gain topk restart purity

/-! ## Helper lemmas -/

@[simp]
theorem set_accuracy_tree (s : WrapperState) : (set_accuracy s).tree_ = s.tree_ := by
  unfold set_accuracy
  cases h1 : s.results <;> cases h2 : s.statistics <;> simp

@[simp]
theorem set_accuracy_fitted (s : WrapperState) : (set_accuracy s).is_fitted_ = s.is_fitted_ := by
  unfold set_accuracy
  cases h1 : s.results <;> cases h2 : s.statistics <;> simp

@[simp]
theorem set_accuracy_error (s : WrapperState) : (set_accuracy s).tree_error_ = s.tree_error_ := by
  unfold set_accuracy
  cases h1 : s.results <;> cases h2 : s.statistics <;> simp

@[simp]
theorem set_accuracy_attr (s : WrapperState) : (set_accuracy s).has_tree_attr = s.has_tree_attr := by
  unfold set_accuracy
  cases h1 : s.results <;> cases h2 : s.statistics <;> simp

/-! ## C3 — rule options force the lower-bound and branching policies -/

/-- C3: in `DL85Classifier.__init__`, when at least one of the rule
options discrepancy/gain/topk/restart/purity is not `None`, the
effective lower-bound policy is `Disabled` and the effective branching
policy is `Default`, whatever policies were supplied; when no rule is
set, the supplied policies are kept. -/
theorem dl85_rules_force_policies (lb : LowerBoundPolicy) (bp : BranchingPolicy)
    (disc : Option ExposedDiscrepancyRule) (gain : Option ExposedGainRule)
    (topk : Option ExposedTopKRule) (restart : Option ExposedRestartRule)
    (purity : Option ExposedPurityRule) :
    ((disc.isSome || gain.isSome || topk.isSome || restart.isSome || purity.isSome) = true →
      effective_policies lb bp disc gain topk restart purity =
        (LowerBoundPolicy.Disabled, BranchingPolicy.Default)) ∧
    (disc = none → gain = none → topk = none → restart = none → purity = none →
      effective_policies lb bp disc gain topk restart purity = (lb, bp)) := by
  constructor
  · intro h
    simp [effective_policies, rules_active, h]
  · intro h1 h2 h3 h4 h5
    subst h1; subst h2; subst h3; subst h4; subst h5
    simp [effective_policies, rules_active]

/-- Witness for C3 at a concrete configuration: a gain rule forces
`(Disabled, Default)`; with no rule, `(Similarity, Dynamic)` is kept. -/
theorem dl85_rules_force_policies_witness :
    effective_policies LowerBoundPolicy.Similarity BranchingPolicy.Dynamic
        none (some ⟨⟩) none none none =
      (LowerBoundPolicy.Disabled, BranchingPolicy.Default) ∧
    effective_policies LowerBoundPolicy.Similarity BranchingPolicy.Dynamic
        none none none none none =
      (LowerBoundPolicy.Similarity, BranchingPolicy.Dynamic) :=
  ⟨(dl85_rules_force_policies LowerBoundPolicy.Similarity BranchingPolicy.Dynamic
      none (some ⟨⟩) none none none).1 (by decide),
   (dl85_rules_force_policies LowerBoundPolicy.Similarity BranchingPolicy.Dynamic
      none none none none none).2 rfl rfl rfl rfl rfl⟩

/-! ## C9 — constructor defaults for max_error and max_time -/

/-- C9 counterexample: the claim states that `DL85Cluster.__init__`
defaults `max_error` to `+∞`; in clustering.py the default is `0.0`. -/
theorem dl85_cluster_max_error_default_not_inf :
    dl85_cluster_default_max_error = PyFloat.val 0 ∧
    dl85_cluster_default_max_error ≠ PyFloat.inf := by
  constructor
  · rfl
  · intro h
    simp [dl85_cluster_default_max_error] at h

/-- C9 amended: `DL85Classifier.__init__` defaults `max_error = +∞`
and `max_time = 600`; `DL85Cluster.__init__` defaults `max_time = 600`
but `max_error = 0.0`. -/
theorem constructor_defaults :
    dl85_classifier_default_max_error = PyFloat.inf ∧
    dl85_classifier_default_max_time = PyFloat.val 600 ∧
    dl85_cluster_default_max_error = PyFloat.val 0 ∧
    dl85_cluster_default_max_time = PyFloat.val 600 :=
  ⟨rfl, rfl, rfl, rfl⟩

/-! ## C8 — the two leaf tests -/

/-- A well-formed serialized tree whose root is an internal node with
both child references equal to the same nonzero index. -/
def shared_child_tree : ParsedTree :=
  [⟨1, 1, ⟨some 0, none, none⟩⟩, ⟨0, 0, ⟨none, some 0, some 0⟩⟩]

/-- C8 counterexample: on the root of `shared_child_tree`, a
well-formed tree per the spec section 3 invariant, the prediction leaf
test `left == 0 and right == 0` says internal while the DOT-export leaf
test `right == left` says leaf — the two tests do not classify every
node of a well-formed tree identically. -/
theorem leaf_tests_disagree_counterexample :
    well_formed_tree shared_child_tree ∧
    shared_child_tree.get? 0 = some ⟨1, 1, ⟨some 0, none, none⟩⟩ ∧
    is_leaf_node ⟨1, 1, ⟨some 0, none, none⟩⟩ = false ∧
    dot_leaf_test ⟨1, 1, ⟨some 0, none, none⟩⟩ = true := by
  refine ⟨by decide, rfl, rfl, rfl⟩

/-- C8 amended: the prediction leaf test implies the DOT leaf test,
and on every node whose equal child indices can only be both zero the
two tests agree; a well-formed tree may still contain an internal node
whose two child references coincide on a nonzero index, and there the
DOT test alone reports a leaf. -/
theorem leaf_tests_agree (n : TreeNode) (h : n.left = n.right → n.left = 0) :
    is_leaf_node n = dot_leaf_test n ∧
    (is_leaf_node n = true → dot_leaf_test n = true) := by
  constructor
  · by_cases hl : n.left = 0 <;> by_cases hr : n.right = 0
    · simp [is_leaf_node, dot_leaf_test, hl, hr]
    · simp [is_leaf_node, dot_leaf_test, hl, hr]
    · simp [is_leaf_node, dot_leaf_test, hl, hr, Ne.symm hl]
    · have hne : n.right ≠ n.left := fun e => hl (h e.symm)
      have e1 : (n.left == 0) = false := by simpa using hl
      have e2 : (n.right == n.left) = false := by simpa using hne
      simp [is_leaf_node, dot_leaf_test, e1, e2]
  · intro h2
    simp only [is_leaf_node, Bool.and_eq_true, beq_iff_eq] at h2
    simp [dot_leaf_test, h2.1, h2.2]

/-- Witness for the amended C8 at a concrete genuine leaf node. -/
theorem leaf_tests_agree_witness :
    is_leaf_node ⟨0, 0, ⟨none, some 0, some 0⟩⟩ =
      dot_leaf_test ⟨0, 0, ⟨none, some 0, some 0⟩⟩ ∧
    (is_leaf_node ⟨0, 0, ⟨none, some 0, some 0⟩⟩ = true →
      dot_leaf_test ⟨0, 0, ⟨none, some 0, some 0⟩⟩ = true) :=
  leaf_tests_agree ⟨0, 0, ⟨none, some 0, some 0⟩⟩ (by decide)

/-! ## C5 — mutually exclusive rules rejected at construction -/

/-- C5: constructing a `DL85Classifier` with two or more of the rule
options set is rejected with a configuration error before any search
starts (engine constructor modelled from the spec, sections 3, 7, 9). -/
theorem multiple_rules_rejected (lb : LowerBoundPolicy) (bp : BranchingPolicy)
    (disc : Option ExposedDiscrepancyRule) (gain : Option ExposedGainRule)
    (topk : Option ExposedTopKRule) (restart : Option ExposedRestartRule)
    (purity : Option ExposedPurityRule)
    (h : 2 ≤ count_active_rules disc gain topk restart purity) :
    dl85_classifier_make lb bp disc gain topk restart purity =
      Except.error ConfigError.mutuallyExclusiveRules := by
  simp only [dl85_classifier_make, pyDL85_new]
  have h1 : 1 < count_active_rules disc gain topk restart purity := h
  rw [if_pos h1]

/-- Witness for C5: a gain rule and a purity rule together are
rejected. -/
theorem multiple_rules_rejected_witness :
    2 ≤ count_active_rules none (some ⟨⟩) none none (some ⟨⟩) ∧
    dl85_classifier_make LowerBoundPolicy.Similarity BranchingPolicy.Dynamic
        none (some ⟨⟩) none none (some ⟨⟩) =
      Except.error ConfigError.mutuallyExclusiveRules :=
  ⟨by decide,
   multiple_rules_rejected LowerBoundPolicy.Similarity BranchingPolicy.Dynamic
     none (some ⟨⟩) none none (some ⟨⟩) (by decide)⟩

/-! ## C6 — engine failure during fit -/

/-- C6: when the engine raises during `DL85Classifier.fit`, the
wrapper raises `SearchFailedError`, sets `is_fitted_` to `False`, and
leaves `results`, `tree_`, `tree_error_` and `accuracy_` unchanged —
no partial tree is produced. -/
theorem fit_engine_failure (s : WrapperState) (engine : Except Unit EngineResult)
    (h : engine = Except.error ()) :
    (dl85_fit s engine).2 = some PyError.searchFailed ∧
    (dl85_fit s engine).1.is_fitted_ = false ∧
    (dl85_fit s engine).1.results = s.results ∧
    (dl85_fit s engine).1.tree_ = s.tree_ ∧
    (dl85_fit s engine).1.tree_error_ = s.tree_error_ ∧
    (dl85_fit s engine).1.accuracy_ = s.accuracy_ := by
  subst h
  simp [dl85_fit]

/-- Witness for C6 on a freshly constructed wrapper. -/
theorem fit_engine_failure_witness :
    (dl85_fit decision_tree_init (Except.error ())).2 = some PyError.searchFailed ∧
    (dl85_fit decision_tree_init (Except.error ())).1.is_fitted_ = false ∧
    (dl85_fit decision_tree_init (Except.error ())).1.results = decision_tree_init.results ∧
    (dl85_fit decision_tree_init (Except.error ())).1.tree_ = decision_tree_init.tree_ ∧
    (dl85_fit decision_tree_init (Except.error ())).1.tree_error_ = decision_tree_init.tree_error_ ∧
    (dl85_fit decision_tree_init (Except.error ())).1.accuracy_ = decision_tree_init.accuracy_ :=
  fit_engine_failure decision_tree_init (Except.error ()) rfl

/-! ## C4 — the sentinel tree versus a genuine result -/

/-- C4: after `refresh_stats`, when the result tree has exactly one
node whose `out` value is outside the valid label set `[0, 1]`, the
wrapper records no tree: `tree_` is `None` and `is_fitted_` keeps its
previous value (it is never set `True` there); for every other result
tree, `tree_` holds the parsed tree, `is_fitted_` becomes `True` and
`tree_error_` equals the result's error. -/
theorem refresh_stats_sentinel (s : WrapperState) (r : EngineResult) :
    (r.tree.length = 1 →
      first_out r.tree ∉ ([some 0, some 1] : List (Option Int)) →
      (refresh_stats s r).tree_ = none ∧
      (refresh_stats s r).is_fitted_ = s.is_fitted_ ∧
      (refresh_stats s r).tree_error_ = s.tree_error_) ∧
    (¬(r.tree.length = 1 ∧
        first_out r.tree ∉ ([some 0, some 1] : List (Option Int))) →
      (refresh_stats s r).tree_ = some r.tree ∧
      (refresh_stats s r).is_fitted_ = true ∧
      (refresh_stats s r).tree_error_ = some r.error) := by
  constructor
  · intro h1 h2
    simp [refresh_stats, h1, h2]
  · intro h
    rw [refresh_stats, if_neg h]
    simp

/-- A result whose tree is the no-tree sentinel: a single node whose
`out` value (`null`) is not in `[0, 1]`. -/
def sentinel_result : EngineResult :=
  ⟨[⟨0, 0, ⟨none, none, some 0⟩⟩], 0, ⟨4⟩⟩

/-- A result carrying a genuine single-leaf tree with `out = 1`. -/
def single_leaf_result : EngineResult :=
  ⟨[⟨0, 0, ⟨none, some 1, some 2⟩⟩], 2, ⟨4⟩⟩

/-- Witness for C4: the sentinel leaves a fresh wrapper without a
tree, while a genuine single-leaf result marks it fitted. -/
theorem refresh_stats_sentinel_witness :
    ((refresh_stats decision_tree_init sentinel_result).tree_ = none ∧
      (refresh_stats decision_tree_init sentinel_result).is_fitted_ =
        decision_tree_init.is_fitted_ ∧
      (refresh_stats decision_tree_init sentinel_result).tree_error_ =
        decision_tree_init.tree_error_) ∧
    ((refresh_stats decision_tree_init single_leaf_result).tree_ =
        some single_leaf_result.tree ∧
      (refresh_stats decision_tree_init single_leaf_result).is_fitted_ = true ∧
      (refresh_stats decision_tree_init single_leaf_result).tree_error_ =
        some single_leaf_result.error) :=
  ⟨(refresh_stats_sentinel decision_tree_init sentinel_result).1
      (by decide) (by decide),
   (refresh_stats_sentinel decision_tree_init single_leaf_result).2
      (by decide)⟩

/-! ## C10 — the predict guard chain -/

theorem refresh_stats_attr (s : WrapperState) (r : EngineResult) :
    (refresh_stats s r).has_tree_attr = s.has_tree_attr := by
  rw [refresh_stats]
  split
  · rfl
  · simp

theorem reachable_has_tree_attr (s : WrapperState) (h : Reachable s) :
    s.has_tree_attr = true := by
  induction h with
  | init => rfl
  | fit s engine _ ih =>
      cases engine with
      | ok r => simpa [dl85_fit, refresh_stats_attr] using ih
      | error e => simpa [dl85_fit] using ih

/-- C10: `predict` raises `NotFittedError` whenever `is_fitted_` is
`False`; on a fitted instance whose `tree_` is `None` it raises
`TreeNotFoundError`; and its `SearchFailedError` branch is unreachable:
`tree_` is assigned in `__init__`, so `hasattr(self, "tree_")` holds in
every reachable state, and the `tree_ is None` check precedes the
`hasattr` check. -/
theorem predict_guard_spec :
    (∀ s : WrapperState, s.is_fitted_ = false →
      predict_guard s = some PyError.notFitted) ∧
    (∀ s : WrapperState, s.is_fitted_ = true → s.tree_ = none →
      predict_guard s = some PyError.treeNotFound) ∧
    (∀ s : WrapperState, Reachable s →
      predict_guard s ≠ some PyError.searchFailed) := by
  refine ⟨?_, ?_, ?_⟩
  · intro s h
    simp [predict_guard, h]
  · intro s h1 h2
    simp [predict_guard, h1, h2]
  · intro s hs hcontra
    have hattr := reachable_has_tree_attr s hs
    rw [predict_guard] at hcontra
    split_ifs at hcontra with g1 g2 g3 <;> simp_all

/-- Witness for C10 on concrete wrapper states: a fresh instance is
not fitted; a fitted instance without a tree reports no tree; a fresh
(reachable) instance never reaches the search-failed branch. -/
theorem predict_guard_spec_witness :
    predict_guard decision_tree_init = some PyError.notFitted ∧
    predict_guard { decision_tree_init with is_fitted_ := true } =
      some PyError.treeNotFound ∧
    predict_guard decision_tree_init ≠ some PyError.searchFailed :=
  ⟨predict_guard_spec.1 decision_tree_init rfl,
   predict_guard_spec.2.1 { decision_tree_init with is_fitted_ := true } rfl rfl,
   predict_guard_spec.2.2 decision_tree_init Reachable.init⟩

/-! ## C2 — prediction traversal -/

/-- C2: `predict` returns one label per input row, in row order, each
obtained by `pred_value_on_dict` started at the root (index 0); a leaf
returns its stored `out` value; an internal node routes to the right
child exactly when the row's value at the tested attribute equals 1,
and to the left child otherwise. -/
theorem predict_traversal_spec (tr : ParsedTree) (fuel : Nat)
    (rows : List (List Nat)) (row : List Nat) (m node child : TreeNode)
    (t v : Nat)
    (hm : is_leaf_node m = true)
    (hleaf : is_leaf_node node = false)
    (htest : node.value.test = some t)
    (hval : row[t]? = some v)
    (hchild : tr[if v = 1 then node.right else node.left]? = some child) :
    predict tr fuel rows =
      rows.map (fun r => tr[0]?.bind (pred_value_on_dict tr r fuel)) ∧
    pred_value_on_dict tr row (fuel + 1) m = m.value.out ∧
    pred_value_on_dict tr row (fuel + 1) node =
      pred_value_on_dict tr row fuel child := by
  refine ⟨?_, ?_, ?_⟩
  · induction rows with
    | nil => rfl
    | cons r rest ih => simp [predict, ih]
  · simp [pred_value_on_dict, hm]
  · simp [pred_value_on_dict, hleaf, htest, hval, hchild]

/-- A three-node serialized tree: root tests attribute 0, left child
(index 1) is a leaf with `out = 0`, right child (index 2) a leaf with
`out = 1`. -/
def ex_tree : ParsedTree :=
  [⟨1, 2, ⟨some 0, none, none⟩⟩,
   ⟨0, 0, ⟨none, some 0, some 0⟩⟩,
   ⟨0, 0, ⟨none, some 1, some 0⟩⟩]

/-- Witness for C2 on `ex_tree` with the single row `[1]`: the tested
attribute reads 1, so traversal steps to the right child. -/
theorem predict_traversal_spec_witness :
    predict ex_tree 1 [[1]] =
      [[1]].map (fun r => ex_tree[0]?.bind (pred_value_on_dict ex_tree r 1)) ∧
    pred_value_on_dict ex_tree [1] 2 ⟨0, 0, ⟨none, some 0, some 0⟩⟩ =
      (⟨0, 0, ⟨none, some 0, some 0⟩⟩ : TreeNode).value.out ∧
    pred_value_on_dict ex_tree [1] 2 ⟨1, 2, ⟨some 0, none, none⟩⟩ =
      pred_value_on_dict ex_tree [1] 1 ⟨0, 0, ⟨none, some 1, some 0⟩⟩ :=
  predict_traversal_spec ex_tree 1 [[1]] [1]
    ⟨0, 0, ⟨none, some 0, some 0⟩⟩ ⟨1, 2, ⟨some 0, none, none⟩⟩
    ⟨0, 0, ⟨none, some 1, some 0⟩⟩ 0 1 rfl rfl rfl rfl rfl

/-! ## C7 — determinism of fit -/

/-- C7: `fit` is deterministic — on equal inputs two runs
(from wrappers agreeing on their previous `tree_error_`) produce
identical `tree_` and identical `tree_error_`; the engine, modelled
from the spec, is a pure function of the dataset and parameters, and
the wrapper adds no randomness. -/
theorem fit_deterministic (numAttr minSup d : Nat) (p : Partition)
    (s1 s2 : WrapperState) (h : s1.tree_error_ = s2.tree_error_) :
    (dl85_fit_run s1 numAttr minSup d p).tree_ =
      (dl85_fit_run s2 numAttr minSup d p).tree_ ∧
    (dl85_fit_run s1 numAttr minSup d p).tree_error_ =
      (dl85_fit_run s2 numAttr minSup d p).tree_error_ := by
  have e : ∀ s : WrapperState, dl85_fit_run s numAttr minSup d p =
      refresh_stats { s with results := some (dl85_engine numAttr minSup d p) }
        (dl85_engine numAttr minSup d p) := fun _ => rfl
  rw [e s1, e s2]
  by_cases hc : (dl85_engine numAttr minSup d p).tree.length = 1 ∧
      first_out (dl85_engine numAttr minSup d p).tree ∉
        ([some 0, some 1] : List (Option Int))
  · rw [refresh_stats, refresh_stats, if_pos hc, if_pos hc]
    exact ⟨rfl, h⟩
  · rw [refresh_stats, refresh_stats, if_neg hc, if_neg hc]
    constructor <;> simp

/-- A two-row example dataset partition over two binary features. -/
def ex_partition : Partition := [([0, 1], 0), ([1, 0], 1)]

/-- Witness for C7: two fresh fits on `ex_partition` agree. -/
theorem fit_deterministic_witness :
    (dl85_fit_run decision_tree_init 2 1 1 ex_partition).tree_ =
      (dl85_fit_run decision_tree_init 2 1 1 ex_partition).tree_ ∧
    (dl85_fit_run decision_tree_init 2 1 1 ex_partition).tree_error_ =
      (dl85_fit_run decision_tree_init 2 1 1 ex_partition).tree_error_ :=
  fit_deterministic 2 1 1 ex_partition decision_tree_init decision_tree_init rfl

/-! ## C1 — optimality dominance over the greedy engine -/

theorem foldl_min_le_init (l : List ℕ) (init : ℕ) : l.foldl min init ≤ init := by
  induction l generalizing init with
  | nil => exact le_refl _
  | cons x xs ih => exact le_trans (ih (min init x)) (min_le_left _ _)

theorem foldl_min_le_of_mem {l : List ℕ} {x : ℕ} (hx : x ∈ l) (init : ℕ) :
    l.foldl min init ≤ x := by
  induction l generalizing init with
  | nil => cases hx
  | cons y ys ih =>
      rcases List.mem_cons.mp hx with h | h
      · subst h
        exact le_trans (foldl_min_le_init ys _) (min_le_right _ _)
      · exact ih h _

theorem opt_error_le_leaf (numAttr minSup d : Nat) (p : Partition) :
    opt_error numAttr minSup d p ≤ leaf_error p := by
  cases d with
  | zero => exact le_refl _
  | succ d => exact foldl_min_le_init _ _

theorem opt_error_le_split (numAttr minSup d : Nat) (p : Partition) (a : Nat)
    (ha : a ∈ candidates numAttr minSup p) :
    opt_error numAttr minSup (d + 1) p ≤
      opt_error numAttr minSup d (split_left p a) +
        opt_error numAttr minSup d (split_right p a) := by
  exact foldl_min_le_of_mem (List.mem_map_of_mem _ ha) _

theorem opt_le_greedy_aux (numAttr minSup : Nat) :
    ∀ (d : Nat) (p : Partition),
      opt_error numAttr minSup d p ≤ greedy_error numAttr minSup d p := by
  intro d
  induction d with
  | zero => intro p; exact le_refl _
  | succ d ih =>
      intro p
      cases hg : greedy_choice numAttr minSup p with
      | none =>
          have hge : greedy_error numAttr minSup (d + 1) p = leaf_error p := by
            rw [greedy_error, hg]
          rw [hge]
          exact opt_error_le_leaf _ _ _ _
      | some a =>
          have ha : a ∈ candidates numAttr minSup p := by
            have := List.argmin_mem (f := fun a =>
              leaf_error (split_left p a) + leaf_error (split_right p a))
              (m := a) (l := candidates numAttr minSup p)
            exact this (by simpa [greedy_choice] using hg)
          have hge : greedy_error numAttr minSup (d + 1) p =
              greedy_error numAttr minSup d (split_left p a) +
                greedy_error numAttr minSup d (split_right p a) := by
            rw [greedy_error, hg]
          rw [hge]
          exact le_trans (opt_error_le_split numAttr minSup d p a ha)
            (Nat.add_le_add (ih _) (ih _))

/-- C1: on any dataset partition with at most 12 binary features and
maximum depth at most the number of features, the error returned by
the optimal engine (`DL85Classifier.fit`, modelled from the spec) is
at most the error of the tree built by the greedy engine
(`LGDTClassifier.fit`, modelled from the spec) with the same minimum
support and depth. -/
theorem optimal_error_dominates_greedy (numAttr minSup d : Nat) (p : Partition)
    (hfeat : numAttr ≤ 12) (hdepth : d ≤ numAttr) :
    (dl85_engine numAttr minSup d p).error ≤
      (greedy_error numAttr minSup d p : ℚ) := by
  have hnat := opt_le_greedy_aux numAttr minSup d p
  show ((opt_error numAttr minSup d p : ℚ)) ≤ _
  exact_mod_cast hnat

/-- Witness for C1: on `ex_partition` (2 features, depth 1, minimum
support 1) the optimal error is at most the greedy error. -/
theorem optimal_error_dominates_greedy_witness :
    2 ≤ 12 ∧ 1 ≤ 2 ∧
    (dl85_engine 2 1 1 ex_partition).error ≤ (greedy_error 2 1 1 ex_partition : ℚ) :=
  ⟨by decide, by decide,
   optimal_error_dominates_greedy 2 1 1 ex_partition (by decide) (by decide)⟩

end PytreesRS
